import Mathlib

/-!
Verification of `pony/dbproviders/sqlite.py` against its specification.

The development shallowly embeds the parts of the module the claims are
about: the cross-thread call-marshalling bridge (`in_dedicated_thread`,
`SqliteMemoryDbThread.run`), the shared-resource facade construction
(the `setattr` loops over `sqlite_con_methods` / `sqlite_con_properties`
and their cursor analogues), the pools (`Pool`, `MemPool`, `get_pool`),
and the converter registry (`IntConverter`, `RealConverter`,
`BasestringConverter`, `StrConverter`, `DecimalConverter`,
`BoolConverter`, `DateConverter`, `DatetimeConverter`).

Modelling conventions:
* Python machine floats are modelled as rationals (every Python float
  denotes a rational); the claims about `RealConverter` concern only
  comparisons and truthiness, which the rational model captures exactly.
* Python `Decimal` values are modelled as rationals together with the
  quantization operation (`Decimal.quantize` with the default
  ROUND_HALF_EVEN rounding); the canonical text produced by `str` on a
  `Decimal` is identified with the rational it denotes (`Decimal(str(d))`
  is exact).
* Python 2 byte strings (`str`) and text strings (`unicode`) are
  modelled as lists of byte values / code points, with the `ascii`,
  `latin1` and `utf8` codecs embedded explicitly, including the implicit
  strict-`ascii` decode Python 2 performs when `.encode` is called on a
  byte string.
* Exceptions are values carrying a kind and a message; fallible code
  returns `Except`.
-/

namespace PonySqlite

/-! ## Exceptions and the Python value universe used by the bridge -/

/-- A Python exception object: its kind (class name) and message. -/
structure Exc where
  kind : String
  msg : String
deriving DecidableEq, Repr

/-- The universe of values flowing through the call-marshalling bridge.
`cursor` is a raw `sqlite.Cursor` produced inside the worker thread;
`memCursorWrapper` is the `MemoryCursorWrapper` facade the bridge wraps
it in before handing it to the caller; `exc` is an exception object
occurring as an ordinary value. -/
inductive PyVal where
  | int (n : Int)
  | str (s : String)
  | bool (b : Bool)
  | exc (e : Exc)
  | cursor (id : Nat)
  | memCursorWrapper (id : Nat)
  | pynone
deriving DecidableEq, Repr

/-- Whether a value is an exception instance (`isinstance(result, Exception)`). -/
def PyVal.isExcVal : PyVal → Bool
  | .exc _ => true
  | _ => false

/-- Whether a value is a raw cursor (`isinstance(result, sqlite.Cursor)`). -/
def PyVal.isCursorVal : PyVal → Bool
  | .cursor _ => true
  | _ => false

/-! ## The call-marshalling bridge

`in_dedicated_thread` (sqlite.py lines 379-389) enqueues
`(local.lock, func, args, keyargs, result_holder)` on the single shared
FIFO `mem_queue` and blocks on the caller's private lock.  The worker
loop `SqliteMemoryDbThread.run` (lines 453-463) pops items in FIFO
order, executes the deferred call, appends either the caught exception
object or the return value into that item's private `result_holder`,
and releases that item's lock.  The caller then inspects
`result_holder[0]`: an `Exception` instance is re-raised, a raw
`sqlite.Cursor` is wrapped in `MemoryCursorWrapper`, anything else is
returned.

A deferred call is represented by its execution outcome on the worker
thread: `Except.ok v` if `func(*args, **keyargs)` returns `v`,
`Except.error e` if it raises `e`. -/

/-- What `SqliteMemoryDbThread.run` stores into `result_holder` for one
item: the caught exception object on failure, the return value on
success (lines 458-462). -/
def workerStore : Except Exc PyVal → PyVal
  | .error e => .exc e
  | .ok v => v

/-- What the woken caller in `in_dedicated_thread` does with the stored
result (lines 384-389): re-raise an `Exception` instance, wrap a raw
cursor, return anything else unchanged. -/
def callerDeliver : PyVal → Except Exc PyVal
  | .exc e => .error e
  | .cursor id => .ok (.memCursorWrapper id)
  | v => .ok v

/-- The end-to-end result a single submission produces for its caller. -/
def submitResult (o : Except Exc PyVal) : Except Exc PyVal :=
  callerDeliver (workerStore o)

/-- One queued work item: `id` identifies the submitting caller's
private lock and `result_holder`; `op` is the deferred call,
represented by its execution outcome on the worker thread. -/
structure WorkItem where
  id : Nat
  op : Except Exc PyVal
deriving Repr

/-- The worker loop of `SqliteMemoryDbThread.run`: consume the pending
queue front-to-back, recording the execution log (caller ids in the
order their operations ran) and each item's written result cell. -/
def runLoop : List WorkItem → List Nat → List (Nat × PyVal) →
    List Nat × List (Nat × PyVal)
  | [], log, cells => (log, cells)
  | it :: rest, log, cells =>
      runLoop rest (log ++ [it.id]) (cells ++ [(it.id, workerStore it.op)])

/-- Look up the result cell written for a given caller id. -/
def findCell : List (Nat × PyVal) → Nat → Option PyVal
  | [], _ => Option.none
  | (i, v) :: rest, j => if i = j then some v else findCell rest j

/-- Running the worker on queue `q` from the initial state. -/
def workerRun (q : List WorkItem) : List Nat × List (Nat × PyVal) :=
  runLoop q [] []

/-! ## The shared-resource facade class dictionaries

`MemoryConnectionWrapper` and `MemoryCursorWrapper` are populated by
module-level `setattr` loops (sqlite.py lines 420-447).  We model a
class dictionary as an association list from attribute name to the kind
of member installed, and execute the loops literally.  Crucially, the
connection-property loop (lines 429-430) reads

    for p in sqlite_con_properties:
        setattr(MemoryConnectionWrapper, m, make_wrapper_property(p))

reusing the leftover loop variable `m` from the preceding method loop
instead of `p`, so every iteration assigns to the same name. -/

/-- A member installed on a wrapper class: a bridge-marshalled method
forwarding to `target` on the real object, a bridge-marshalled property
reading/writing `target`, or a direct (unmarshalled) method. -/
inductive Member where
  | marshalledMethod (target : String)
  | marshalledProp (target : String)
  | directMethod (target : String)
deriving DecidableEq, Repr

/-- A class dictionary: attribute name to installed member. -/
abbrev ClassDict := List (String × Member)

/-- `setattr(cls, name, member)`: replace an existing binding or add a
new one. -/
def setMember : ClassDict → String → Member → ClassDict
  | [], n, mem => [(n, mem)]
  | (k, v) :: rest, n, mem =>
      if k = n then (n, mem) :: rest else (k, v) :: setMember rest n mem

/-- `getattr(cls, name)` on the class dictionary. -/
def getMember : ClassDict → String → Option Member
  | [], _ => Option.none
  | (k, v) :: rest, n => if k = n then some v else getMember rest n

/-- sqlite.py lines 420-422. -/
def sqlite_con_methods : List String :=
  ["cursor", "commit", "rollback", "close", "execute", "executemany",
   "executescript", "create_function", "create_aggregate",
   "create_collation", "set_authorizer", "set_process_handler"]

/-- sqlite.py line 427. -/
def sqlite_con_properties : List String :=
  ["isolation_level", "row_factory", "text_factory", "total_changes"]

/-- sqlite.py lines 438-439. -/
def sqlite_cur_methods : List String :=
  ["execute", "executemany", "executescript", "fetchone", "fetchmany",
   "fetchall", "next", "close", "setinputsize", "setoutputsize"]

/-- sqlite.py line 444. -/
def sqlite_cur_properties : List String :=
  ["rowcount", "lastrowid", "description", "arraysize"]

/-- The method loop: `for m in methods: setattr(cls, m, make_wrapper_method(m))`. -/
def methodLoop (d : ClassDict) (methods : List String) : ClassDict :=
  methods.foldl (fun acc mname => setMember acc mname (.marshalledMethod mname)) d

/-- The connection property loop (lines 429-430): the assigned name is
the leftover loop variable `m` from the method loop — constant across
iterations — while the wrapped property target is `p`. -/
def conPropLoop (d : ClassDict) (leftoverM : String) (props : List String) : ClassDict :=
  props.foldl (fun acc p => setMember acc leftoverM (.marshalledProp p)) d

/-- The cursor property loop (lines 446-447), which correctly uses `p`
for both the assigned name and the property target. -/
def curPropLoop (d : ClassDict) (props : List String) : ClassDict :=
  props.foldl (fun acc p => setMember acc p (.marshalledProp p)) d

/-- Members defined directly in the `class MemoryConnectionWrapper`
body (lines 408-418): `interrupt` calls the real object without
marshalling; `iterdump` is marshalled. -/
def conBaseDict : ClassDict :=
  [("interrupt", .directMethod "interrupt"),
   ("iterdump", .marshalledMethod "iterdump")]

/-- The final class dictionary of `MemoryConnectionWrapper` after both
module-level loops run.  The property loop's assigned name is whatever
`m` was left holding after the method loop: its last element. -/
def memoryConnectionWrapperDict : ClassDict :=
  conPropLoop (methodLoop conBaseDict sqlite_con_methods)
    (sqlite_con_methods.getLastD "") sqlite_con_properties

/-- The final class dictionary of `MemoryCursorWrapper` after both
module-level loops run (its class body defines no marshalled members). -/
def memoryCursorWrapperDict : ClassDict :=
  curPropLoop (methodLoop [] sqlite_cur_methods) sqlite_cur_properties

/-! ## `MemPool` construction (sqlite.py lines 63-81, `get_pool` line 31)

`MemPool.__init__` assigns `mempool.con = MemoryConnectionWrapper()`
unconditionally, then acquires `mem_connect_lock` and re-checks
`if mempool.con is None` before constructing again.  We track, in a
small world, how many `MemoryConnectionWrapper` constructions have been
performed and which wrapper each pool ended up holding. -/

/-- Process-wide state for wrapper construction. -/
structure MemWorld where
  nextWrapperId : Nat
  constructions : Nat
deriving DecidableEq, Repr

/-- `MemoryConnectionWrapper()`: allocates a fresh wrapper (whose
`__init__` opens its own `sqlite.connect(':memory:')` connection on the
worker thread) and counts the construction. -/
def newWrapper (w : MemWorld) : Nat × MemWorld :=
  (w.nextWrapperId, ⟨w.nextWrapperId + 1, w.constructions + 1⟩)

/-- A `MemPool` instance: `con` is `Option` so the code's
`if mempool.con is None` test is expressible. -/
structure MemPool where
  con : Option Nat
deriving DecidableEq, Repr

/-- `MemPool.__init__` (lines 64-70), executed literally: unconditional
construction first, then the lock-guarded `is None` re-check.  The
returned flag records whether the guarded branch ran. -/
def memPoolInit (w : MemWorld) : MemPool × MemWorld × Bool :=
  let fst := newWrapper w
  let con : Option Nat := some fst.1
  -- `mem_connect_lock.acquire()` ... `finally: release()`
  if con = Option.none then
    let snd := newWrapper fst.2
    (⟨some snd.1⟩, snd.2, true)
  else
    (⟨con⟩, fst.2, false)

/-- `get_pool(':memory:')` (line 31): returns a brand-new `MemPool`. -/
def get_pool_memory (w : MemWorld) : MemPool × MemWorld × Bool :=
  memPoolInit w

/-! ## `MemPool` operations and the wrapper connection's lifetime
(sqlite.py lines 71-81)

The underlying shared connection is modelled by whether it is open and
whether a transaction is pending.  `MemPool.connect` just returns the
cached facade; `release` and `close` both perform only a rollback; the
finalizer `__del__` reads `if con is None: con.close()`, and
`mempool.con` is always set by `__init__`, so the guard is false and
`close` is never reached on a live connection. -/

/-- The state of the single real in-memory connection under a facade. -/
structure MemConState where
  isOpen : Bool
  inTxn : Bool
deriving DecidableEq, Repr

/-- Effect of `con.rollback()` on the underlying connection. -/
def conRollback (s : MemConState) : MemConState :=
  { s with inTxn := false }

/-- Effect of `con.close()` on the underlying connection. -/
def conClose (s : MemConState) : MemConState :=
  { s with isOpen := false }

/-- The operations a `MemPool` can perform on its connection. -/
inductive MemPoolOp where
  | connect
  | release
  | close
  | finalize
deriving DecidableEq, Repr

/-- `MemPool.__del__` (lines 79-81): `con = mempool.con; if con is
None: con.close()`. -/
def memPoolDel (con : Option Nat) (s : MemConState) : MemConState :=
  match con with
  | Option.none => conClose s
  | some _ => s

/-- One `MemPool` operation acting on the underlying connection state.
`connect` returns `mempool.con` unchanged (line 72); `release` asserts
identity then rolls back (lines 73-75); `close` asserts identity then
rolls back — it does not close (lines 76-78); `finalize` is `__del__`.
`mempool.con` is always `some` after `__init__`, which is threaded in
as `conRef`. -/
def memPoolStep (conRef : Option Nat) (s : MemConState) : MemPoolOp → MemConState
  | .connect => s
  | .release => conRollback s
  | .close => conRollback s
  | .finalize => memPoolDel conRef s

/-- Run a sequence of `MemPool` operations. -/
def memPoolRun (conRef : Option Nat) (s : MemConState) (ops : List MemPoolOp) : MemConState :=
  ops.foldl (memPoolStep conRef) s

/-! ## The per-thread file-backed `Pool` (sqlite.py lines 36-59)

Each thread owns one `Pool` instance (it is `localbase`-derived).
`connect` returns the cached connection or opens a fresh one;
`release` rolls back and, if the rollback raises, closes the connection,
drops it from the cache, and re-raises; `close` drops the cache and
closes.  The model threads a world holding the next fresh connection id,
the set of open connections, and whether the database file exists. -/

/-- Errors a pool operation can raise. -/
inductive PoolErr where
  | ioError          -- "Database file is not found"
  | rollbackFailed   -- the exception raised by a failing `con.rollback()`
  | assertionError   -- `assert con is pool.con` failed
deriving DecidableEq, Repr

/-- Per-thread pool state: the cached connection, if any. -/
structure Pool where
  create_db : Bool
  con : Option Nat
deriving DecidableEq, Repr

/-- World state for the file-backed pool. -/
structure FileWorld where
  nextCon : Nat
  openCons : List Nat
  fileExists : Bool
deriving DecidableEq, Repr

/-- `Pool.connect` (lines 41-49): return the cached connection, or
check file existence, open and cache a fresh one. -/
def Pool.connect (p : Pool) (w : FileWorld) :
    Except PoolErr (Nat × Pool × FileWorld) :=
  match p.con with
  | some c => .ok (c, p, w)
  | Option.none =>
      if ¬ p.create_db ∧ ¬ w.fileExists then .error .ioError
      else
        .ok (w.nextCon, { p with con := some w.nextCon },
             { w with nextCon := w.nextCon + 1,
                      openCons := w.nextCon :: w.openCons })

/-- `Pool.close` (lines 56-59): assert identity, drop the cache, close
the real connection. -/
def Pool.close (p : Pool) (w : FileWorld) (c : Nat) :
    Pool × FileWorld × Option PoolErr :=
  if p.con = some c then
    ({ p with con := Option.none }, { w with openCons := w.openCons.erase c },
     Option.none)
  else (p, w, some .assertionError)

/-- `Pool.release` (lines 50-55): assert identity; roll back; if the
rollback raises (`rollbackOk = false`), call `pool.close(con)` and
re-raise the rollback failure. -/
def Pool.release (p : Pool) (w : FileWorld) (c : Nat) (rollbackOk : Bool) :
    Pool × FileWorld × Option PoolErr :=
  if p.con = some c then
    if rollbackOk then (p, w, Option.none)
    else
      let closed := Pool.close p w c
      (closed.1, closed.2.1, some .rollbackFailed)
  else (p, w, some .assertionError)

/-! ## Converter errors -/

/-- The kinds of exception a converter can raise from `validate` or a
codec: `typeError` for wrong runtime type / failed coercion,
`tooSmall` / `tooLarge` for the `ValueError`s of the min/max range
checks, `tooLong` / `emptyValue` for the `ValueError`s of the string
length checks, `unicodeDecodeError` for a strict decode failure. -/
inductive ConvErr where
  | typeError
  | tooSmall
  | tooLarge
  | tooLong
  | emptyValue
  | unicodeDecodeError
deriving DecidableEq, Repr

/-! ## `IntConverter` (sqlite.py lines 202-225) -/

/-- Truthiness of an optional integer bound: Python's
`if converter.min_val and ...` — `None` and `0` are both falsy. -/
def intBoundLow : Option Int → Int → Bool
  | Option.none, _ => false
  | some m, n => m != 0 && decide (n < m)

/-- Truthiness of an optional integer upper bound, as above. -/
def intBoundHigh : Option Int → Int → Bool
  | Option.none, _ => false
  | some m, n => m != 0 && decide (n > m)

/-- Configuration of an `IntConverter` after `init`. -/
structure IntConverter where
  min_val : Option Int
  max_val : Option Int
deriving DecidableEq, Repr

/-- A value handed to `IntConverter.validate`: a Python int/long, or
anything failing `isinstance(val, (int, long))`. -/
inductive IntInput where
  | int (n : Int)
  | other
deriving DecidableEq, Repr

/-- `IntConverter.validate` (lines 214-223). -/
def IntConverter.validate (c : IntConverter) (v : IntInput) : Except ConvErr Int :=
  match v with
  | .other => .error .typeError
  | .int n =>
      if intBoundLow c.min_val n then .error .tooSmall
      else if intBoundHigh c.max_val n then .error .tooLarge
      else .ok n

/-! ## `RealConverter` (sqlite.py lines 227-255)

Python floats are modelled as rationals; `float(val)` coerces ints and
floats and raises `ValueError` → re-raised as `TypeError` otherwise. -/

/-- Truthiness of an optional rational bound: `None` and `0.0` falsy. -/
def ratBoundLow : Option ℚ → ℚ → Bool
  | Option.none, _ => false
  | some m, q => m != 0 && decide (q < m)

/-- Truthiness of an optional rational upper bound, as above. -/
def ratBoundHigh : Option ℚ → ℚ → Bool
  | Option.none, _ => false
  | some m, q => m != 0 && decide (q > m)

/-- Configuration of a `RealConverter` after `init`. -/
structure RealConverter where
  min_val : Option ℚ
  max_val : Option ℚ
deriving DecidableEq, Repr

/-- A value handed to `RealConverter.validate`: a float, an int (both
coerced by `float(val)`), or something that makes `float(val)` raise. -/
inductive RealInput where
  | real (q : ℚ)
  | int (n : Int)
  | bad
deriving DecidableEq, Repr

/-- The `float(val)` coercion at the top of `RealConverter.validate`. -/
def floatCoerce : RealInput → Except ConvErr ℚ
  | .real q => .ok q
  | .int n => .ok (n : ℚ)
  | .bad => .error .typeError

/-- `RealConverter.validate` (lines 243-253). -/
def RealConverter.validate (c : RealConverter) (v : RealInput) : Except ConvErr ℚ :=
  match floatCoerce v with
  | .error e => .error e
  | .ok q =>
      if ratBoundLow c.min_val q then .error .tooSmall
      else if ratBoundHigh c.max_val q then .error .tooLarge
      else .ok q

/-! ## `BasestringConverter` (sqlite.py lines 151-172)

Only the length of the value matters to `validate`; it is modelled on
Lean strings via `String.length`. -/

/-- Truthiness of the optional max length: `if max_len and val_len >
max_len` — `None` and `0` falsy. -/
def lenBoundHigh : Option Nat → Nat → Bool
  | Option.none, _ => false
  | some m, l => m != 0 && decide (l > m)

/-- Configuration of a `BasestringConverter` after `init`. -/
structure BasestringConverter where
  max_len : Option Nat
deriving DecidableEq, Repr

/-- `BasestringConverter.validate` (lines 161-168): length check first,
then the unconditional emptiness check. -/
def BasestringConverter.validate (c : BasestringConverter) (val : String) :
    Except ConvErr String :=
  if lenBoundHigh c.max_len val.length then .error .tooLong
  else if val.length = 0 then .error .emptyValue
  else .ok val

/-! ## `DecimalConverter` (sqlite.py lines 257-322)

`Decimal` values are modelled as rationals.  `Decimal.quantize(exp)` at
`exp = 10 ** -scale` rounds to `scale` fractional digits with the
default ROUND_HALF_EVEN rounding.  `str` on a `Decimal` produces the
canonical text, and `Decimal(str(d))` recovers `d` exactly, so the
stored text is identified with the rational it denotes. -/

/-- Round a rational to the nearest integer, ties to even
(ROUND_HALF_EVEN, the `Decimal` default). -/
def roundHalfEven (q : ℚ) : Int :=
  let f : Int := ⌊q⌋
  if q - f < 1/2 then f
  else if 1/2 < q - f then f + 1
  else if f % 2 = 0 then f else f + 1

/-- `Decimal.quantize(Decimal(10) ** -scale)`. -/
def quantizeQ (scale : Nat) (q : ℚ) : ℚ :=
  (roundHalfEven (q * 10 ^ scale) : ℚ) / 10 ^ scale

/-- Configuration of a `DecimalConverter`: `hasExp` is false exactly
when `converter.exp is None` (the standalone, attr-less case of
line 259). -/
structure DecimalConverter where
  scale : Nat
  hasExp : Bool
  min_val : Option ℚ
  max_val : Option ℚ
deriving DecidableEq, Repr

/-- A value handed to `DecimalConverter.validate`: a `Decimal`, an int
(`Decimal(val)` succeeds), or a value on which `Decimal(val)` raises
`InvalidOperation`. -/
inductive DecInput where
  | dec (q : ℚ)
  | int (n : Int)
  | bad
deriving DecidableEq, Repr

/-- The coercion at the top of `DecimalConverter.validate`
(lines 300-303): `type(val) is Decimal` returns `val` directly;
otherwise `return Decimal(val)`, with `InvalidOperation` re-raised as
`TypeError`. -/
def decCoerce : DecInput → Except ConvErr ℚ
  | .dec q => .ok q
  | .int n => .ok (n : ℚ)
  | .bad => .error .typeError

/-- `DecimalConverter.validate` as written (lines 299-309): both live
paths of the coercion return (or raise) immediately, so the min/max
range checks on lines 304-309 are unreachable and `validate` is exactly
the coercion. -/
def DecimalConverter.validate (_c : DecimalConverter) (v : DecInput) :
    Except ConvErr ℚ :=
  decCoerce v

/-- The unreachable range checks of lines 304-309, transcribed: note
they test `is not None` (not truthiness). -/
def DecimalConverter.rangeError (c : DecimalConverter) (q : ℚ) : Option ConvErr :=
  match c.min_val with
  | some m => if q < m then some .tooSmall else
      match c.max_val with
      | some M => if M < q then some .tooLarge else Option.none
      | Option.none => Option.none
  | Option.none =>
      match c.max_val with
      | some M => if M < q then some .tooLarge else Option.none
      | Option.none => Option.none

/-- `validate` as the specification describes it ("range-checked after
coercion to decimal"): coerce, then apply the range checks of
lines 304-309, then return the coerced value.  This is the intended
behavior the dead code was meant to implement. -/
def DecimalConverter.validateSpec (c : DecimalConverter) (v : DecInput) :
    Except ConvErr ℚ :=
  match decCoerce v with
  | .error e => .error e
  | .ok q =>
      match c.rangeError q with
      | some e => .error e
      | Option.none => .ok q

/-- `DecimalConverter.py2sql` (lines 316-320): coerce to `Decimal`
(identity on our rational domain), quantize to the configured exponent
when one is set, serialize with `str` (identified with its value). -/
def DecimalConverter.py2sql (c : DecimalConverter) (q : ℚ) : ℚ :=
  if c.hasExp then quantizeQ c.scale q else q

/-- `DecimalConverter.sql2py` (lines 310-315): parse `Decimal(str(val))`
(exact on the stored canonical text), then quantize to the configured
exponent when one is set. -/
def DecimalConverter.sql2py (c : DecimalConverter) (q : ℚ) : ℚ :=
  if c.hasExp then quantizeQ c.scale q else q

/-! ## Base `Converter` and `BoolConverter` (sqlite.py lines 124-149) -/

/-- The base `Converter.py2sql` (lines 135-136): identity.  Inherited
by `IntConverter`, `RealConverter`, `BlobConverter`,
`UnicodeConverter` and `BoolConverter`. -/
def Converter.py2sql (v : PyVal) : PyVal := v

/-- The base `Converter.sql2py` (lines 137-138): identity.  Inherited
by `IntConverter`, `RealConverter`, `BlobConverter` and
`UnicodeConverter`. -/
def Converter.sql2py (v : PyVal) : PyVal := v

/-- Python's `bool()` coercion on our value universe. -/
def PyVal.pybool : PyVal → Bool
  | .int n => n != 0
  | .str s => s.length != 0
  | .bool b => b
  | .pynone => false
  | _ => true

/-- `BoolConverter.sql2py` (lines 146-147): `bool(val)`. -/
def BoolConverter.sql2py (v : PyVal) : PyVal := .bool v.pybool

/-! ## `StrConverter` (sqlite.py lines 182-200)

Python 2 byte strings are lists of byte values, text strings lists of
code points.  The three codecs the module can be configured with are
embedded explicitly; `'replace'` substitutes `'?'` (byte 63) on encode
errors, while Python 2's implicit decode when `.encode` is invoked on a
byte string is always strict `ascii`. -/

/-- The text encodings relevant to `StrConverter`: `'ascii'` (the
standalone default, line 184), `'latin1'` (the attr default, line 188)
and `'utf8'` (the special case of line 197). -/
inductive PyEncoding where
  | ascii
  | latin1
  | utf8
deriving DecidableEq, Repr

/-- A Python 2 string value: a byte string or a text string. -/
inductive PyStr where
  | bytes (bs : List Nat)
  | uni (cps : List Nat)
deriving DecidableEq, Repr

/-- UTF-8 encoding of one code point. -/
def utf8EncodeChar (c : Nat) : List Nat :=
  if c < 128 then [c]
  else if c < 2048 then [192 + c / 64, 128 + c % 64]
  else if c < 65536 then [224 + c / 4096, 128 + c / 64 % 64, 128 + c % 64]
  else [240 + c / 262144, 128 + c / 4096 % 64, 128 + c / 64 % 64, 128 + c % 64]

/-- Encoding of one code point with the `'replace'` error handler. -/
def encodeCharReplace : PyEncoding → Nat → List Nat
  | .ascii, c => if c < 128 then [c] else [63]
  | .latin1, c => if c < 256 then [c] else [63]
  | .utf8, c => utf8EncodeChar c

/-- `unicode.encode(encoding, 'replace')`. -/
def uniEncodeReplace (enc : PyEncoding) (cps : List Nat) : List Nat :=
  (cps.map (encodeCharReplace enc)).flatten

/-- `StrConverter.py2sql` (lines 196-198): with `'utf8'` the byte
string is returned unchanged; otherwise `val.decode(encoding)` runs,
strict — `ascii` raises `UnicodeDecodeError` on any byte at or above
128, `latin1` maps byte `k` to code point `k`. -/
def StrConverter.py2sql : PyEncoding → List Nat → Except ConvErr PyStr
  | .utf8, bs => .ok (.bytes bs)
  | .ascii, bs =>
      if bs.all (fun b => b < 128) then .ok (.uni bs)
      else .error .unicodeDecodeError
  | .latin1, bs => .ok (.uni bs)

/-- `StrConverter.sql2py` (lines 199-200): `val.encode(encoding,
'replace')`.  On a text string this is a plain encode with
replacement; on a byte string Python 2 first performs a strict implicit
`ascii` decode (to which `'replace'` does not apply) and raises
`UnicodeDecodeError` on any byte at or above 128. -/
def StrConverter.sql2py (enc : PyEncoding) (v : PyStr) : Except ConvErr (List Nat) :=
  match v with
  | .uni cps => .ok (uniEncodeReplace enc cps)
  | .bytes bs =>
      if bs.all (fun b => b < 128) then .ok (uniEncodeReplace enc bs)
      else .error .unicodeDecodeError

/-- The composition `sql2py(py2sql(v))` on a byte-string value. -/
def StrConverter.roundTrip (enc : PyEncoding) (bs : List Nat) :
    Except ConvErr (List Nat) :=
  match StrConverter.py2sql enc bs with
  | .error e => .error e
  | .ok w => StrConverter.sql2py enc w

/-- `val.encode(encoding)` strict, used by `StrConverter.validate`
(line 192) to re-encode a text string handed to a byte-string
attribute. -/
def uniEncodeStrict (enc : PyEncoding) (cps : List Nat) : Except ConvErr (List Nat) :=
  match enc with
  | .ascii =>
      if cps.all (fun c => c < 128) then .ok cps else .error .unicodeDecodeError
  | .latin1 =>
      if cps.all (fun c => c < 256) then .ok cps else .error .unicodeDecodeError
  | .utf8 => .ok ((cps.map utf8EncodeChar).flatten)

/-- The `BasestringConverter.validate` body (lines 161-168) applied to
a byte string. -/
def basestringCheck (max_len : Option Nat) (bs : List Nat) : Except ConvErr (List Nat) :=
  if lenBoundHigh max_len bs.length then .error .tooLong
  else if bs.length = 0 then .error .emptyValue
  else .ok bs

/-- Configuration of a `StrConverter`: the standalone (attr-less)
instance has `encoding = ascii` and no max length (lines 183-184). -/
structure StrConverter where
  encoding : PyEncoding
  max_len : Option Nat
deriving DecidableEq, Repr

/-- `StrConverter.validate` (lines 189-195): a byte string passes
through; a text string is re-encoded strictly in the configured
encoding; then the inherited `BasestringConverter.validate` runs. -/
def StrConverter.validate (c : StrConverter) (v : PyStr) : Except ConvErr (List Nat) :=
  match v with
  | .bytes bs => basestringCheck c.max_len bs
  | .uni cps =>
      match uniEncodeStrict c.encoding cps with
      | .error e => .error e
      | .ok bs => basestringCheck c.max_len bs

/-! ## `DateConverter` (sqlite.py lines 351-368)

`py2sql` renders `val.strftime('%Y-%m-%d')`; `sql2py` parses the first
ten characters back with `strptime(val[:10], '%Y-%m-%d')`.  The
ten-character zero-padded rendering `YYYY-MM-DD` is in bijection with
the number `y * 10000 + m * 100 + d` for four-digit years, so the
stored text is identified with that digit reading. -/

/-- A Python `date`. -/
structure PyDate where
  year : Nat
  month : Nat
  day : Nat
deriving DecidableEq, Repr

/-- `DateConverter.py2sql` (lines 365-366): the digit reading of the
`YYYY-MM-DD` rendering. -/
def DateConverter.py2sql (dt : PyDate) : Nat :=
  dt.year * 10000 + dt.month * 100 + dt.day

/-- `DateConverter.sql2py` (lines 360-364), success path: parse the
digit reading back into year, month, day. -/
def DateConverter.sql2py (n : Nat) : PyDate :=
  ⟨n / 10000, n / 100 % 100, n % 100⟩

/-! ## `DatetimeConverter` (sqlite.py lines 335-349) -/

/-- A Python `datetime`. -/
structure PyDatetime where
  year : Nat
  month : Nat
  day : Nat
  hour : Nat
  minute : Nat
  second : Nat
  microsecond : Nat
deriving DecidableEq, Repr

/-- Modelled from the spec: `datetime2timestamp` lives in `pony.utils`,
which is not part of this snapshot; the spec says only that a datetime
is serialized "to a numeric/text timestamp representation" whose
round-trip is exact up to the configured precision.  We model it as the
injective mixed-radix reading of the timestamp text, preserving every
field down to microseconds. -/
def datetime2timestamp (t : PyDatetime) : Nat :=
  ((((t.year * 13 + t.month) * 32 + t.day) * 24 + t.hour) * 60 + t.minute)
      * 60000000 + t.second * 1000000 + t.microsecond

/-- Modelled from the spec: `timestamp2datetime` (`pony.utils`), the
parse of the stored representation used by the success path of
`DatetimeConverter.sql2py` (lines 343-345). -/
def timestamp2datetime (n : Nat) : PyDatetime :=
  ⟨n / 60000000 / 60 / 24 / 32 / 13,
   n / 60000000 / 60 / 24 / 32 % 13,
   n / 60000000 / 60 / 24 % 32,
   n / 60000000 / 60 % 24,
   n / 60000000 % 60,
   n / 1000000 % 60,
   n % 1000000⟩

/-- The result the caller with id `i` reads after the worker drains
queue `q`: its result cell, post-processed exactly as the tail of
`in_dedicated_thread` does. -/
def callerReceived (q : List WorkItem) (i : Nat) : Option (Except Exc PyVal) :=
  (findCell (workerRun q).2 i).map callerDeliver

/-! ## Helper lemmas -/

theorem runLoop_eq (q : List WorkItem) (log : List Nat)
    (cells : List (Nat × PyVal)) :
    runLoop q log cells =
      (log ++ q.map WorkItem.id,
       cells ++ q.map fun it => (it.id, workerStore it.op)) := by
  induction q generalizing log cells with
  | nil => simp [runLoop]
  | cons it rest ih => simp [runLoop, ih]

theorem findCell_map_self (q : List WorkItem)
    (hnd : (q.map WorkItem.id).Nodup) (it : WorkItem) (hmem : it ∈ q) :
    findCell (q.map fun x => (x.id, workerStore x.op)) it.id =
      some (workerStore it.op) := by
  induction q with
  | nil => cases hmem
  | cons a rest ih =>
      simp only [List.map_cons, List.nodup_cons] at hnd
      rcases List.mem_cons.mp hmem with h | h
      · subst h
        simp [findCell]
      · have hne : a.id ≠ it.id := by
          intro he
          exact hnd.1 (he ▸ List.mem_map_of_mem WorkItem.id h)
        simp only [List.map_cons, findCell, if_neg hne]
        exact ih hnd.2 h

end PonySqlite

namespace PonySqlite

/-! ## Claim theorems -/

/-- C1: for every finite sequence of operations enqueued on the single
shared FIFO queue, the worker executes them in exactly enqueue order
(no reordering, no batching: the execution log is the queue's id
sequence), every submission completes (one result cell per item), and
each caller reads from its own result cell the result of its own
operation — never one produced for another caller. -/
theorem bridge_fifo_and_own_results (q : List WorkItem)
    (hnd : (q.map WorkItem.id).Nodup) :
    (workerRun q).1 = q.map WorkItem.id ∧
    (workerRun q).2.length = q.length ∧
    ∀ it ∈ q, callerReceived q it.id = some (submitResult it.op) := by
  refine ⟨?_, ?_, ?_⟩
  · simp [workerRun, runLoop_eq]
  · simp [workerRun, runLoop_eq]
  · intro it hmem
    unfold callerReceived
    have : (workerRun q).2 = q.map fun x => (x.id, workerStore x.op) := by
      simp [workerRun, runLoop_eq]
    rw [this, findCell_map_self q hnd it hmem]
    rfl

/-- C1 witness: a concrete three-item queue (a success, a failure and a
cursor-producing operation from three distinct callers). -/
theorem bridge_fifo_and_own_results_witness :
    (([⟨7, Except.ok (PyVal.int 1)⟩,
       ⟨2, Except.error ⟨"OperationalError", "locked"⟩⟩,
       ⟨9, Except.ok (PyVal.cursor 4)⟩] :
        List WorkItem).map WorkItem.id).Nodup ∧
    callerReceived
        [⟨7, Except.ok (PyVal.int 1)⟩,
         ⟨2, Except.error ⟨"OperationalError", "locked"⟩⟩,
         ⟨9, Except.ok (PyVal.cursor 4)⟩] 2 =
      some (Except.error ⟨"OperationalError", "locked"⟩) := by
  have hnd : (([⟨7, Except.ok (PyVal.int 1)⟩,
       ⟨2, Except.error ⟨"OperationalError", "locked"⟩⟩,
       ⟨9, Except.ok (PyVal.cursor 4)⟩] :
        List WorkItem).map WorkItem.id).Nodup := by
    simp [List.nodup_cons]
  refine ⟨hnd, ?_⟩
  have h := (bridge_fifo_and_own_results _ hnd).2.2
      ⟨2, Except.error ⟨"OperationalError", "locked"⟩⟩ (by simp)
  simpa using h

/-- C2 counterexample: an operation that returns normally with an
`Exception` instance as its value.  The claim says the bridge returns
the produced value; the bridge instead raises it in the caller. -/
theorem bridge_returns_value_counterexample :
    submitResult (Except.ok (PyVal.exc ⟨"ValueError", "boom"⟩)) ≠
      Except.ok (PyVal.exc ⟨"ValueError", "boom"⟩) := by
  simp [submitResult, workerStore, callerDeliver]

/-- C2 (amended): if the operation raises, the bridge re-raises the
very same exception (kind and message preserved, unwrapped) in the
caller; if the operation returns normally with a value that is neither
an `Exception` instance nor a raw cursor, the bridge returns that value
unchanged; a raw cursor is returned wrapped in the cursor facade (and a
returned `Exception` instance is raised — see the counterexample). -/
theorem bridge_propagates_errors_and_values (o : Except Exc PyVal) :
    (∀ e : Exc, o = Except.error e → submitResult o = Except.error e) ∧
    (∀ v : PyVal, o = Except.ok v → v.isExcVal = false →
      v.isCursorVal = false → submitResult o = Except.ok v) ∧
    (∀ id : Nat, o = Except.ok (PyVal.cursor id) →
      submitResult o = Except.ok (PyVal.memCursorWrapper id)) := by
  refine ⟨?_, ?_, ?_⟩
  · rintro e rfl
    rfl
  · rintro v rfl h1 h2
    cases v <;> simp_all [submitResult, workerStore, callerDeliver,
      PyVal.isExcVal, PyVal.isCursorVal]
  · rintro id rfl
    rfl

/-- C2 witness: a concrete failing operation and a concrete normal
operation. -/
theorem bridge_propagates_errors_and_values_witness :
    submitResult (Except.error ⟨"IntegrityError", "dup"⟩) =
      Except.error ⟨"IntegrityError", "dup"⟩ ∧
    submitResult (Except.ok (PyVal.int 42)) = Except.ok (PyVal.int 42) := by
  refine ⟨?_, ?_⟩
  · exact (bridge_propagates_errors_and_values
      (Except.error ⟨"IntegrityError", "dup"⟩)).1 _ rfl
  · exact (bridge_propagates_errors_and_values
      (Except.ok (PyVal.int 42))).2.1 (PyVal.int 42) rfl rfl rfl

/-- C9: success/failure discrimination in the caller is by the runtime
type of the stored result (`isinstance(result, Exception)`): an
operation that returns an `Exception` instance normally has that value
raised in the caller, and consequently no bridged operation ever
returns an `Exception` instance as a successful result. -/
theorem bridge_discriminates_by_type (o : Except Exc PyVal) :
    (∀ e : Exc, o = Except.ok (PyVal.exc e) → submitResult o = Except.error e) ∧
    (∀ v : PyVal, submitResult o = Except.ok v → v.isExcVal = false) := by
  refine ⟨?_, ?_⟩
  · rintro e rfl
    rfl
  · intro v h
    cases o with
    | error e =>
        simp [submitResult, workerStore, callerDeliver] at h
    | ok w =>
        cases w <;> simp [submitResult, workerStore, callerDeliver] at h <;>
          (subst h; simp [PyVal.isExcVal])

/-- C9 witness: a concrete operation returning an exception value, and
a concrete successful result checked to not be an exception value. -/
theorem bridge_discriminates_by_type_witness :
    submitResult (Except.ok (PyVal.exc ⟨"KeyError", "k"⟩)) =
      Except.error ⟨"KeyError", "k"⟩ ∧
    (PyVal.str "row").isExcVal = false := by
  refine ⟨?_, ?_⟩
  · exact (bridge_discriminates_by_type
      (Except.ok (PyVal.exc ⟨"KeyError", "k"⟩))).1 _ rfl
  · exact (bridge_discriminates_by_type
      (Except.ok (PyVal.str "row"))).2 (PyVal.str "row") rfl

/-- C3: the cursor facade exposes every allow-listed method and
property, and the connection facade exposes every allow-listed method
with `interrupt` direct — but the connection property loop (sqlite.py
line 430) passes the leftover method-loop variable `m` instead of `p`
to `setattr`, so none of `isolation_level`, `row_factory`,
`text_factory`, `total_changes` exists on the connection facade;
instead `set_process_handler` ends up rebound to a marshalled property
reading `total_changes`.  This contradicts the claim (and the intent
visible in the correct cursor loop, lines 446-447). -/
theorem facade_con_properties_not_installed :
    getMember memoryConnectionWrapperDict "isolation_level" = Option.none ∧
    getMember memoryConnectionWrapperDict "row_factory" = Option.none ∧
    getMember memoryConnectionWrapperDict "text_factory" = Option.none ∧
    getMember memoryConnectionWrapperDict "total_changes" = Option.none ∧
    getMember memoryConnectionWrapperDict "set_process_handler" =
      some (Member.marshalledProp "total_changes") ∧
    getMember memoryConnectionWrapperDict "interrupt" =
      some (Member.directMethod "interrupt") ∧
    ((sqlite_con_methods.filter fun mn => mn ≠ "set_process_handler").all
      fun mn => getMember memoryConnectionWrapperDict mn ==
        some (Member.marshalledMethod mn)) = true ∧
    (sqlite_cur_methods.all fun mn =>
      getMember memoryCursorWrapperDict mn ==
        some (Member.marshalledMethod mn)) = true ∧
    (sqlite_cur_properties.all fun p =>
      getMember memoryCursorWrapperDict p ==
        some (Member.marshalledProp p)) = true := by
  decide

/-- C4: `MemPool.__init__` constructs a fresh `MemoryConnectionWrapper`
unconditionally before taking `mem_connect_lock`, so the lock-guarded
`if mempool.con is None` re-check can never fire, and every call of
`get_pool(':memory:')` builds its own wrapper: two requests resolve to
two distinct connections and perform two constructions, contradicting
the lazily-created process-wide singleton the claim (and the dead
double-check) describe. -/
theorem mempool_not_a_singleton :
    (∀ w : MemWorld,
      (memPoolInit w).2.2 = false ∧
      (memPoolInit w).2.1.constructions = w.constructions + 1 ∧
      (memPoolInit w).1.con = some w.nextWrapperId) ∧
    (get_pool_memory ⟨0, 0⟩).1.con ≠
      (get_pool_memory (get_pool_memory ⟨0, 0⟩).2.1).1.con ∧
    (get_pool_memory (get_pool_memory ⟨0, 0⟩).2.1).2.1.constructions = 2 := by
  refine ⟨fun w => ?_, ?_, ?_⟩
  · simp [memPoolInit, newWrapper]
  · decide
  · decide

/-- C5: `DecimalConverter.validate` (lines 299-309) never performs its
range checks: every live path returns (or raises `TypeError`) during
the coercion, before the min/max comparisons on lines 304-309, which
are dead code.  In particular a converter configured with `min = 5`
accepts `Decimal('1')` and returns it, where the claim (and the
converter's own dead range-check code, matching `IntConverter` and
`RealConverter`) says a `ValueError` must be raised. -/
theorem decimal_validate_range_checks_dead :
    (∀ (c : DecimalConverter) (v : DecInput),
      c.validate v ≠ Except.error ConvErr.tooSmall ∧
      c.validate v ≠ Except.error ConvErr.tooLarge) ∧
    ((⟨2, true, some 5, Option.none⟩ : DecimalConverter).validate
      (DecInput.dec 1) = Except.ok 1) ∧
    ((⟨2, true, some 5, Option.none⟩ : DecimalConverter).validateSpec
      (DecInput.dec 1) = Except.error ConvErr.tooSmall) := by
  refine ⟨fun c v => ?_, rfl, ?_⟩
  · cases v <;> simp [DecimalConverter.validate, decCoerce]
  · norm_num [DecimalConverter.validateSpec, DecimalConverter.rangeError,
      decCoerce]

/-- C6 counterexample: a bounded-text converter whose configured max
length is zero rejects the (unique) value whose length equals that
bound — the empty string is always refused by the separate emptiness
check — so "a text value whose length exactly equals the configured max
length passes validate" fails as stated at `max_len = 0`, `val = ""`. -/
theorem text_at_zero_max_len_rejected :
    (⟨some 0⟩ : BasestringConverter).validate "" =
      Except.error ConvErr.emptyValue ∧
    (⟨some 0⟩ : BasestringConverter).validate "" ≠ Except.ok "" := by
  refine ⟨rfl, ?_⟩
  intro h
  cases h

/-- C6 (amended): bound comparisons are strict, so an integer or real
value exactly equal to a configured min/max passes validate (provided
the other bound does not independently reject it), and a text value
whose length equals a nonzero configured max passes; a configured bound
of zero is falsy and rejects nothing — for text the zero bound rejects
nothing, though the empty string is still refused by the separate
emptiness check. -/
theorem strict_bounds_and_zero_bound_falsy :
    (∀ (c : IntConverter) (m : Int), c.min_val = some m →
      intBoundHigh c.max_val m = false →
      c.validate (IntInput.int m) = Except.ok m) ∧
    (∀ (c : IntConverter) (m : Int), c.max_val = some m →
      intBoundLow c.min_val m = false →
      c.validate (IntInput.int m) = Except.ok m) ∧
    (∀ n : Int, (⟨some 0, some 0⟩ : IntConverter).validate (IntInput.int n) =
      Except.ok n) ∧
    (∀ (c : RealConverter) (m : ℚ), c.min_val = some m →
      ratBoundHigh c.max_val m = false →
      c.validate (RealInput.real m) = Except.ok m) ∧
    (∀ (c : RealConverter) (m : ℚ), c.max_val = some m →
      ratBoundLow c.min_val m = false →
      c.validate (RealInput.real m) = Except.ok m) ∧
    (∀ q : ℚ, (⟨some 0, some 0⟩ : RealConverter).validate (RealInput.real q) =
      Except.ok q) ∧
    (∀ (s : String) (m : Nat), s.length = m → m ≠ 0 →
      (⟨some m⟩ : BasestringConverter).validate s = Except.ok s) ∧
    (∀ s : String, s.length ≠ 0 →
      (⟨some 0⟩ : BasestringConverter).validate s = Except.ok s) := by
  refine ⟨?_, ?_, ?_, ?_, ?_, ?_, ?_, ?_⟩
  · intro c m hmin hmax
    simp [IntConverter.validate, hmin, hmax, intBoundLow]
  · intro c m hmax hmin
    simp [IntConverter.validate, hmin, hmax, intBoundHigh]
  · intro n
    simp [IntConverter.validate, intBoundLow, intBoundHigh]
  · intro c m hmin hmax
    simp [RealConverter.validate, floatCoerce, hmin, hmax, ratBoundLow]
  · intro c m hmax hmin
    simp [RealConverter.validate, floatCoerce, hmin, hmax, ratBoundHigh]
  · intro q
    simp [RealConverter.validate, floatCoerce, ratBoundLow, ratBoundHigh]
  · intro s m hlen hm
    simp [BasestringConverter.validate, lenBoundHigh, hlen, hm]
  · intro s hs
    simp [BasestringConverter.validate, lenBoundHigh, hs]

/-- C6 witness: concrete instances of each amended conjunct — an
integer converter with `min = max = 7` accepting exactly 7, zero bounds
accepting an out-of-range-looking value, a real converter with
`min = 3/2` accepting `3/2`, and a text converter with `max_len = 4`
accepting a four-character value. -/
theorem strict_bounds_and_zero_bound_falsy_witness :
    (⟨some 7, some 7⟩ : IntConverter).validate (IntInput.int 7) =
      Except.ok 7 ∧
    (⟨some 0, some 0⟩ : IntConverter).validate (IntInput.int (-100)) =
      Except.ok (-100) ∧
    (⟨some (3/2), Option.none⟩ : RealConverter).validate
      (RealInput.real (3/2)) = Except.ok (3/2) ∧
    (⟨some 4⟩ : BasestringConverter).validate "abcd" = Except.ok "abcd" := by
  refine ⟨?_, ?_, ?_, ?_⟩
  · exact strict_bounds_and_zero_bound_falsy.1 ⟨some 7, some 7⟩ 7 rfl (by decide)
  · exact strict_bounds_and_zero_bound_falsy.2.2.1 (-100)
  · exact strict_bounds_and_zero_bound_falsy.2.2.2.1 ⟨some (3/2), Option.none⟩
      (3/2) rfl (by rfl)
  · exact strict_bounds_and_zero_bound_falsy.2.2.2.2.2.2.1 "abcd" 4 rfl
      (by decide)

/-! ## Round-trip helper lemmas -/

theorem roundHalfEven_intCast (k : Int) : roundHalfEven (k : ℚ) = k := by
  simp [roundHalfEven]

theorem quantizeQ_idem (s : Nat) (q : ℚ) :
    quantizeQ s (quantizeQ s q) = quantizeQ s q := by
  unfold quantizeQ
  rw [div_mul_cancel₀, roundHalfEven_intCast]
  positivity

theorem uniEncodeReplace_eq_self (enc : PyEncoding) (bs : List Nat)
    (h : ∀ b ∈ bs, encodeCharReplace enc b = [b]) :
    uniEncodeReplace enc bs = bs := by
  induction bs with
  | nil => rfl
  | cons b rest ih =>
      have hb := h b (List.mem_cons_self b rest)
      have hr := ih fun x hx => h x (List.mem_cons_of_mem b hx)
      simp only [uniEncodeReplace, List.map_cons, List.flatten_cons, hb]
      simpa [uniEncodeReplace] using hr

theorem uniEncodeReplace_latin1_self (bs : List Nat)
    (h : (bs.all fun b => b < 256) = true) :
    uniEncodeReplace PyEncoding.latin1 bs = bs := by
  refine uniEncodeReplace_eq_self _ _ fun b hb => ?_
  have : b < 256 := by
    have := List.all_eq_true.mp h b hb
    exact of_decide_eq_true this
  simp [encodeCharReplace, this]

theorem uniEncodeReplace_lt128_self (enc : PyEncoding) (bs : List Nat)
    (h : (bs.all fun b => b < 128) = true) :
    uniEncodeReplace enc bs = bs := by
  refine uniEncodeReplace_eq_self _ _ fun b hb => ?_
  have hblt : b < 128 := of_decide_eq_true (List.all_eq_true.mp h b hb)
  have hblt256 : b < 256 := by omega
  cases enc <;> simp [encodeCharReplace, utf8EncodeChar, hblt, hblt256]

theorem datetime_decode_encode (t : PyDatetime) (hmo : t.month < 13)
    (hd : t.day < 32) (hh : t.hour < 24) (hmi : t.minute < 60)
    (hs : t.second < 60) (hus : t.microsecond < 1000000) :
    timestamp2datetime (datetime2timestamp t) = t := by
  cases t with
  | mk y mo d h mi s us =>
      simp only [datetime2timestamp, timestamp2datetime] at *
      simp only [PyDatetime.mk.injEq]
      refine ⟨?_, ?_, ?_, ?_, ?_, ?_, ?_⟩ <;> omega

/-- C7 counterexample: the standalone `StrConverter` (its default
encoding is `'ascii'`, sqlite.py line 184) accepts the one-byte string
`'\xff'` as a valid value, yet `sql2py(py2sql(v))` raises
`UnicodeDecodeError` during encoding instead of yielding the value
back, so the round-trip claim fails for a valid byte-string value even
though byte strings are not in the claim's decimal/timestamp exception
list. -/
theorem roundtrip_fails_on_nonascii_str :
    (⟨PyEncoding.ascii, Option.none⟩ : StrConverter).validate
      (PyStr.bytes [255]) = Except.ok [255] ∧
    StrConverter.roundTrip PyEncoding.ascii [255] =
      Except.error ConvErr.unicodeDecodeError ∧
    StrConverter.roundTrip PyEncoding.ascii [255] ≠ Except.ok [255] := by
  refine ⟨rfl, rfl, ?_⟩
  intro h
  cases h

/-- C7 (amended): `sql2py ∘ py2sql` restores every valid value exactly
for the identity-coded converters (int, real, blob, unicode — the
inherited base methods — and bool), for dates (four-digit years), and —
modulo the configured scale, with idempotent quantization — for
fixed-point decimals; timestamps round-trip through the spec-modelled
`pony.utils` serialization; byte strings round-trip when the value
decodes in the configured encoding (always under `latin1`, exactly for
ASCII-clean values under `ascii` and `utf8`), the residual case being
the counterexample's encoding failure. -/
theorem converters_roundtrip :
    (∀ v : PyVal, Converter.sql2py (Converter.py2sql v) = v) ∧
    (∀ b : Bool, BoolConverter.sql2py (Converter.py2sql (PyVal.bool b)) =
      PyVal.bool b) ∧
    (∀ (c : DecimalConverter) (q : ℚ), c.hasExp = true →
      c.sql2py (c.py2sql q) = quantizeQ c.scale q) ∧
    (∀ (c : DecimalConverter) (q : ℚ), c.py2sql (c.py2sql q) = c.py2sql q) ∧
    (∀ (s : Nat) (q : ℚ), quantizeQ s (quantizeQ s q) = quantizeQ s q) ∧
    (∀ bs : List Nat, (bs.all fun b => b < 256) = true →
      StrConverter.roundTrip PyEncoding.latin1 bs = Except.ok bs) ∧
    (∀ bs : List Nat, (bs.all fun b => b < 128) = true →
      StrConverter.roundTrip PyEncoding.ascii bs = Except.ok bs ∧
      StrConverter.roundTrip PyEncoding.utf8 bs = Except.ok bs) ∧
    (∀ dt : PyDate, dt.month < 100 → dt.day < 100 →
      DateConverter.sql2py (DateConverter.py2sql dt) = dt) ∧
    (∀ t : PyDatetime, t.month < 13 → t.day < 32 → t.hour < 24 →
      t.minute < 60 → t.second < 60 → t.microsecond < 1000000 →
      timestamp2datetime (datetime2timestamp t) = t) := by
  refine ⟨fun v => rfl, fun b => rfl, ?_, ?_, quantizeQ_idem, ?_, ?_, ?_,
    datetime_decode_encode⟩
  · intro c q hc
    simp [DecimalConverter.sql2py, DecimalConverter.py2sql, hc, quantizeQ_idem]
  · intro c q
    cases hc : c.hasExp <;>
      simp [DecimalConverter.py2sql, hc, quantizeQ_idem]
  · intro bs h
    simp [StrConverter.roundTrip, StrConverter.py2sql, StrConverter.sql2py,
      uniEncodeReplace_latin1_self bs h]
  · intro bs h
    have hall : ∀ b ∈ bs, b < 128 := fun b hb =>
      of_decide_eq_true (List.all_eq_true.mp h b hb)
    constructor
    · simp [StrConverter.roundTrip, StrConverter.py2sql, StrConverter.sql2py,
        h, uniEncodeReplace_lt128_self PyEncoding.ascii bs h]
    · simp [StrConverter.roundTrip, StrConverter.py2sql, StrConverter.sql2py,
        h, uniEncodeReplace_lt128_self PyEncoding.utf8 bs h]
  · intro dt hm hd
    cases dt with
    | mk y m d =>
        simp only [DateConverter.py2sql, DateConverter.sql2py] at *
        simp only [PyDate.mk.injEq]
        refine ⟨?_, ?_, ?_⟩ <;> omega

/-- C7 witness: concrete values — an integer through the identity
converter, a decimal `3.005` quantized at scale 2 (banker's rounding to
`3.00`), a latin1 byte string, and a concrete date and datetime. -/
theorem converters_roundtrip_witness :
    Converter.sql2py (Converter.py2sql (PyVal.int 11)) = PyVal.int 11 ∧
    DecimalConverter.sql2py ⟨2, true, Option.none, Option.none⟩
        (DecimalConverter.py2sql ⟨2, true, Option.none, Option.none⟩
          (601 / 200)) = quantizeQ 2 (601 / 200) ∧
    quantizeQ 2 (601 / 200) = 3 ∧
    StrConverter.roundTrip PyEncoding.latin1 [80, 255, 200] =
      Except.ok [80, 255, 200] ∧
    DateConverter.sql2py (DateConverter.py2sql ⟨2008, 12, 31⟩) =
      (⟨2008, 12, 31⟩ : PyDate) ∧
    timestamp2datetime (datetime2timestamp ⟨2008, 12, 31, 23, 59, 58, 7⟩) =
      (⟨2008, 12, 31, 23, 59, 58, 7⟩ : PyDatetime) := by
  refine ⟨converters_roundtrip.1 (PyVal.int 11), ?_, ?_, ?_, ?_, ?_⟩
  · exact converters_roundtrip.2.2.1 ⟨2, true, Option.none, Option.none⟩
      (601 / 200) rfl
  · norm_num [quantizeQ, roundHalfEven]
  · exact converters_roundtrip.2.2.2.2.2.1 [80, 255, 200] (by decide)
  · exact converters_roundtrip.2.2.2.2.2.2.2.1 ⟨2008, 12, 31⟩ (by decide)
      (by decide)
  · exact converters_roundtrip.2.2.2.2.2.2.2.2 ⟨2008, 12, 31, 23, 59, 58, 7⟩
      (by decide) (by decide) (by decide) (by decide) (by decide) (by decide)

/-- C8: when the rollback inside `Pool.release` raises, the connection
is closed (removed from the set of open connections), the thread's
cache is cleared, the rollback failure is re-raised, and a subsequent
`Pool.connect` on the same thread opens a fresh connection with a new
identity rather than returning the stale handle. -/
theorem pool_release_rollback_failure (p : Pool) (w : FileWorld) (c : Nat)
    (hcon : p.con = some c) (hfresh : c < w.nextCon)
    (hnodup : w.openCons.Nodup)
    (hopenable : p.create_db = true ∨ w.fileExists = true) :
    (Pool.release p w c false).2.2 = some PoolErr.rollbackFailed ∧
    (Pool.release p w c false).1.con = Option.none ∧
    c ∉ (Pool.release p w c false).2.1.openCons ∧
    ∃ p2 w2,
      Pool.connect (Pool.release p w c false).1
          (Pool.release p w c false).2.1 =
        Except.ok (w.nextCon, p2, w2) ∧
      w.nextCon ≠ c ∧ p2.con = some w.nextCon := by
  have hrel : Pool.release p w c false =
      ({ p with con := Option.none },
       { w with openCons := w.openCons.erase c },
       some PoolErr.rollbackFailed) := by
    simp [Pool.release, Pool.close, hcon]
  refine ⟨by rw [hrel], by rw [hrel], ?_, ?_⟩
  · rw [hrel]
    exact fun hmem => (hnodup.mem_erase_iff.mp hmem).1 rfl
  · refine ⟨{ p with con := some w.nextCon },
      { nextCon := w.nextCon + 1,
        openCons := w.nextCon :: w.openCons.erase c,
        fileExists := w.fileExists }, ?_, by omega, rfl⟩
    rw [hrel]
    rcases hopenable with hc | hf
    · simp [Pool.connect, hc]
    · simp [Pool.connect, hf]

/-- C8 witness: a pool caching connection 5, whose rollback fails. -/
theorem pool_release_rollback_failure_witness :
    ((⟨false, some 5⟩ : Pool).con = some 5) ∧
    (Pool.release ⟨false, some 5⟩ ⟨6, [5], true⟩ 5 false).1.con =
      Option.none ∧
    5 ∉ (Pool.release ⟨false, some 5⟩ ⟨6, [5], true⟩ 5 false).2.1.openCons := by
  have h := pool_release_rollback_failure ⟨false, some 5⟩ ⟨6, [5], true⟩ 5
    rfl (by decide) (by decide) (Or.inr rfl)
  exact ⟨rfl, h.2.1, h.2.2.1⟩

/-- C10: the shared in-memory pool never closes its underlying
connection: `MemPool.close` performs only a rollback, the `__del__`
finalizer's `if con is None` guard is false for the always-present
wrapper so its `con.close()` is never reached, and consequently the
connection stays open across every sequence of pool operations
(connect, release, close, finalize). -/
theorem mempool_never_closes_connection (conId : Nat) (s : MemConState)
    (ops : List MemPoolOp) (hopen : s.isOpen = true) :
    (∀ s2 : MemConState, memPoolStep (some conId) s2 MemPoolOp.close =
      conRollback s2 ∧ (conRollback s2).isOpen = s2.isOpen) ∧
    (∀ s2 : MemConState, memPoolStep (some conId) s2 MemPoolOp.finalize = s2) ∧
    (memPoolRun (some conId) s ops).isOpen = true := by
  refine ⟨fun s2 => ⟨rfl, rfl⟩, fun s2 => rfl, ?_⟩
  induction ops generalizing s with
  | nil => exact hopen
  | cons op rest ih =>
      cases op <;>
        exact ih _ (by simp_all [memPoolRun, memPoolStep, conRollback,
          memPoolDel])

/-- C10 witness: an open connection with a pending transaction survives
a connect-release-close-finalize sequence. -/
theorem mempool_never_closes_connection_witness :
    (memPoolRun (some 0) ⟨true, true⟩
      [MemPoolOp.connect, MemPoolOp.release, MemPoolOp.close,
       MemPoolOp.finalize]).isOpen = true := by
  exact (mempool_never_closes_connection 0 ⟨true, true⟩
    [MemPoolOp.connect, MemPoolOp.release, MemPoolOp.close,
     MemPoolOp.finalize] rfl).2.2

end PonySqlite
